import Mathlib

/-!
# appfwk: queue registry, command identifiers, bounded buffer

A shallow embedding of

* `QueueRegistry::get_queue` and `QueueRegistry::create_queue`
  (`include/app-framework/QueueRegistry.hxx`),
* `str`, `toId` and the constants of `IdNames` (`include/appfwk/CmdStructs.hpp`),
* the constructor, `do_configure`, `do_unconfigure` and `do_work` of
  `FakeDataConsumerDAQModule` (`test/FakeDataConsumerDAQModule.cpp`),
* the bounded buffer exercised by `unittest/DequeBuffer_test.cc`,

followed by theorems about them.

Objects created with `std::make_shared` live in an explicit heap (a list of
objects, the address of an object being its index), so that "the same
instance" is equality of addresses.  A `std::map` is an association list with
`find` and assignment through `operator[]`.  A C++ function that may throw
returns an `Except` value together with the state it leaves behind.
-/

namespace appframework

deriving instance DecidableEq for Except

/-! ## `std::map<K, V>` -/

/-- The lookup `m.find(k)`: `none` stands for `m.end()`. -/
def map_find {K V : Type} [DecidableEq K] : List (K × V) → K → Option V
  | [], _ => none
  | (k', v) :: rest, k => if k' = k then some v else map_find rest k

/-- The assignment `m[k] = v`: overwrites the value of an existing key, adds the key otherwise. -/
def map_assign {K V : Type} [DecidableEq K] : List (K × V) → K → V → List (K × V)
  | [], k, v => [(k, v)]
  | (k', v') :: rest, k, v =>
      if k' = k then (k, v) :: rest else (k', v') :: map_assign rest k v

/-! ## Types used by the registry -/

/-- The `std::type_info` of an element type: what `typeid(T)` denotes.  Two types are the same
exactly when their `type_info` objects are equal. -/
structure type_info where
  /-- The implementation-defined (mangled) name returned by `type_info::name()`. -/
  name : String
deriving DecidableEq, Repr

/-- Modelled from the spec: the declaration of `QueueConfig::queue_kind` lives in a header that
is not included here.  The spec lists one kind, the deque, which the code names `std_deque`;
`other n` stands for any other value of the enumeration's underlying integer, which `create_queue`
sends to its `default:` branch. -/
inductive queue_kind where
  | std_deque
  | other (raw : Nat)
deriving DecidableEq, Repr

/-- The two members of `QueueConfig` that `create_queue` reads. -/
structure QueueConfig where
  kind : queue_kind
  size : Nat
deriving DecidableEq, Repr

/-- Modelled from the spec: the class templates `NamedStdDeQueue<T>` and `NamedQueueI<T>` are
declared in headers that are not included here.  An object built by
`std::make_shared<NamedStdDeQueue<T>>(name, config.size)` is recorded with its element type `T`
and its two constructor arguments; it is a `NamedQueueI<U>` exactly when `U` is `T` ("exact match
or explicit typed error"). -/
structure NamedStdDeQueue where
  elem : type_info
  name : String
  size : Nat
deriving DecidableEq, Repr

/-- A `std::shared_ptr`: `none` is the null pointer, `some a` points to the heap object at
address `a`. -/
abbrev shared_ptr := Option Nat

/-- The heap of queue objects; an address is an index into it. -/
abbrev Heap := List NamedStdDeQueue

/-- The struct `QueueEntry`, whose members are `const std::type_info* type` and
`std::shared_ptr<NamedObject> instance`. -/
structure QueueEntry where
  type : type_info
  instance_ : shared_ptr
deriving DecidableEq, Repr

/-- The registry object: its two tables, and the heap its shared pointers point into. -/
structure QueueRegistry where
  queue_registry_ : List (String × QueueEntry)
  queue_configmap_ : List (String × QueueConfig)
  heap : Heap
deriving DecidableEq, Repr

/-- What `get_queue` and `create_queue` throw. -/
inductive QueueError where
  /-- `QueueTypeMismatch(ERS_HERE, name, realname_source, realname_target)`. -/
  | QueueTypeMismatch (queue_name source_type target_type : String)
  /-- `std::runtime_error(what)`. -/
  | runtime_error (what : String)
deriving DecidableEq, Repr

/-- The cast `std::dynamic_pointer_cast<NamedQueueI<T>>(p)`: the same pointer when `p` points to
an object whose class derives from `NamedQueueI<T>` (a `NamedStdDeQueue<T>`), null otherwise. -/
def dynamic_pointer_cast (heap : Heap) (T : type_info) (p : shared_ptr) : shared_ptr :=
  match p with
  | none => none
  | some a =>
      match heap[a]? with
      | some o => if o.elem = T then some a else none
      | none => none

/-- The function `QueueRegistry::create_queue<T>(name, config)`.  It reads no member of the
registry; `make_shared` puts the new object at the next free address of the heap. -/
def create_queue (T : type_info) (name : String) (config : QueueConfig) (heap : Heap) :
    Except QueueError shared_ptr × Heap :=
  match config.kind with
  | queue_kind.std_deque =>
      (Except.ok (some heap.length), heap ++ [{ elem := T, name := name, size := config.size }])
  | _ => (Except.error (QueueError.runtime_error "Unknown queue kind"), heap)

/-- The first `if` of `get_queue`: the error thrown when `name` has an entry whose instance
does not cast to `NamedQueueI<T>`, and `none` when control leaves the `if` without a throw. -/
def get_queue_lookup (demangle : String → String) (T : type_info) (name : String)
    (s : QueueRegistry) : Option QueueError :=
  match map_find s.queue_registry_ name with
  | some itQ =>
      match dynamic_pointer_cast s.heap T itQ.instance_ with
      | none =>
          some (QueueError.QueueTypeMismatch name (demangle itQ.type.name) (demangle T.name))
      | some _ => none
  | none => none

/-- The function `QueueRegistry::get_queue<T>(name)`, statement by statement.  `demangle` is
`abi::__cxa_demangle`.  The result is the value returned or the exception thrown, and the
registry as the call leaves it. -/
def get_queue (demangle : String → String) (T : type_info) (name : String)
    (s : QueueRegistry) : Except QueueError shared_ptr × QueueRegistry :=
  match get_queue_lookup demangle T name s with
  | some err => (Except.error err, s)
  | none =>
      match map_find s.queue_configmap_ name with
      | some config =>
          match create_queue T name config s.heap with
          | (Except.ok q, heap1) =>
              let entry : QueueEntry := { type := T, instance_ := q }
              (Except.ok (dynamic_pointer_cast heap1 T entry.instance_),
                { s with queue_registry_ := map_assign s.queue_registry_ name entry,
                         heap := heap1 })
          | (Except.error err, heap1) => (Except.error err, { s with heap := heap1 })
      | none => (Except.error (QueueError.runtime_error "Queue not found"), s)

/-- Modelled from the spec: the constructor of `QueueRegistry` and the code that fills in
`queue_configmap_` live in files that are not included here.  The configuration table is "supplied
externally before first access" and is "read-only once ingested", so a registry starts with no
entry, an arbitrary configuration table, and nothing allocated. -/
def QueueRegistry.configured (configmap : List (String × QueueConfig)) : QueueRegistry :=
  { queue_registry_ := [], queue_configmap_ := configmap, heap := [] }

/-- A sequence of calls `get_queue<T>(name)`, one after the other, whatever each returns or
throws; the result is the registry after the last one. -/
def get_queue_calls (demangle : String → String) :
    List (type_info × String) → QueueRegistry → QueueRegistry
  | [], s => s
  | (T, name) :: rest, s => get_queue_calls demangle rest (get_queue demangle T name s).2

/-- What holds of the registry between calls: the instance of every entry points to a live object
whose dynamic element type is the one recorded in the entry, and every name with an entry has a
configuration. -/
def QueueRegistry.Sound (s : QueueRegistry) : Prop :=
  ∀ name e, map_find s.queue_registry_ name = some e →
    (∃ a o, e.instance_ = some a ∧ s.heap[a]? = some o ∧ o.elem = e.type) ∧
    (∃ config, map_find s.queue_configmap_ name = some config)

/-! ## The bounded buffer -/

/-- Modelled from the spec: the class `DequeBuffer<T>` (`app-framework/Buffers/DequeBuffer.hh`)
is exercised by `unittest/DequeBuffer_test.cc`, its header is not included here.  A buffer is an
ordered sequence of elements, oldest first, a capacity fixed at construction, and the two default
timeouts in milliseconds. -/
structure DequeBuffer (T : Type) where
  items : List T
  capacity : Nat
  push_timeout : Nat
  pop_timeout : Nat
deriving DecidableEq, Repr

/-- The error a `push` or `pop` fails with when its timeout elapses. -/
inductive BufferError where
  | QueueTimeoutExpired
deriving DecidableEq, Repr

/-- Modelled from the spec: the observer `size()`. -/
def DequeBuffer.size {T : Type} (b : DequeBuffer T) : Nat := b.items.length

/-- Modelled from the spec: the observer `full()`, the buffer has no room left. -/
def DequeBuffer.full {T : Type} (b : DequeBuffer T) : Bool := decide (b.capacity ≤ b.size)

/-- Modelled from the spec: `push(value, timeout)` "blocks the calling thread until the buffer has
room or `timeout` elapses.  On success, appends `value` and returns normally.  On timeout, leaves the
buffer unchanged and fails with `QueueTimeoutExpired`"; "a zero timeout means fail immediately if not
satisfiable without waiting".  The wait is counted in milliseconds still to go; no other
thread touches the buffer while this one waits. -/
def DequeBuffer.push {T : Type} (value : T) :
    Nat → DequeBuffer T → Except BufferError Unit × DequeBuffer T
  | 0, b =>
      if b.full then (Except.error BufferError.QueueTimeoutExpired, b)
      else (Except.ok (), { b with items := b.items ++ [value] })
  | timeout + 1, b =>
      if b.full then DequeBuffer.push value timeout b
      else (Except.ok (), { b with items := b.items ++ [value] })

/-- Modelled from the spec: the observer `empty()`, the buffer holds no element. -/
def DequeBuffer.empty {T : Type} (b : DequeBuffer T) : Bool := b.items.isEmpty

/-- Modelled from the spec: `pop(timeout)` "blocks until an element is available or `timeout`
elapses; on success removes and returns the oldest element (FIFO); on timeout fails with
`QueueTimeoutExpired` and the buffer is unchanged".  The wait is counted in milliseconds still to
go; no other thread touches the buffer while this one waits. -/
def DequeBuffer.pop {T : Type} : Nat → DequeBuffer T → Except BufferError T × DequeBuffer T
  | 0, b =>
      match b.items with
      | [] => (Except.error BufferError.QueueTimeoutExpired, b)
      | oldest :: rest => (Except.ok oldest, { b with items := rest })
  | timeout + 1, b =>
      match b.items with
      | [] => DequeBuffer.pop timeout b
      | oldest :: rest => (Except.ok oldest, { b with items := rest })

end appframework

namespace dunedaq.appfwk.cmd

/-! ## Command identifiers (`CmdStructs.hpp`) -/

/-- The enumeration `enum class Id: unsigned`: a value of it is a value of the underlying unsigned
integer, of which nine are named. -/
structure Id where
  raw : Nat
deriving DecidableEq, Repr

def Id.exec : Id := { raw := 0 }
def Id.init : Id := { raw := 1 }
def Id.conf : Id := { raw := 2 }
def Id.start : Id := { raw := 3 }
def Id.stop : Id := { raw := 4 }
def Id.scrap : Id := { raw := 5 }
def Id.fina : Id := { raw := 6 }
def Id.term : Id := { raw := 7 }
def Id.undef : Id := { raw := 8 }

/-- The nine enumerators, in the order of their declaration. -/
def Id.enumerators : List Id :=
  [Id.exec, Id.init, Id.conf, Id.start, Id.stop, Id.scrap, Id.fina, Id.term, Id.undef]

/-- The table `id2s` of `str`. -/
def id2s : List (Id × String) :=
  [(Id.exec, "exec"), (Id.init, "init"), (Id.conf, "conf"), (Id.start, "start"),
   (Id.stop, "stop"), (Id.scrap, "scrap"), (Id.fina, "fina"), (Id.term, "term"),
   (Id.undef, "undef")]

/-- The function `str(id)`: the name of an identifier, or the `std::runtime_error` whose message
is given. -/
def str (id : Id) : Except String String :=
  match appframework.map_find id2s id with
  | none => Except.error "unknown Id enum"
  | some name => Except.ok name

/-- The table `s2id` of `toId`. -/
def s2id : List (String × Id) :=
  [("exec", Id.exec), ("init", Id.init), ("conf", Id.conf), ("start", Id.start),
   ("stop", Id.stop), ("scrap", Id.scrap), ("fina", Id.fina), ("term", Id.term),
   ("undef", Id.undef)]

/-- The function `toId(id)`: the identifier of a name, or the `std::runtime_error` whose message
is given. -/
def toId (id : String) : Except String Id :=
  match appframework.map_find s2id id with
  | none => Except.error ("no Id enum for " ++ id)
  | some v => Except.ok v

/-! The string constants of `struct IdNames`. -/

def IdNames.exec : String := "exec"
def IdNames.init : String := "init"
def IdNames.conf : String := "conf"
def IdNames.start : String := "start"
def IdNames.stop : String := "stop"
def IdNames.scrap : String := "scrap"
def IdNames.fina : String := "fina"
def IdNames.term : String := "term"
def IdNames.undef : String := "undef"

end dunedaq.appfwk.cmd

namespace dunedaq.appfwk

/-! ## The module `FakeDataConsumerDAQModule` (`test/FakeDataConsumerDAQModule.cpp`) -/

/-- The members of the generated struct `FakeDataConsumerCfg` that the module reads; the struct
is declared in `TestStructs.hpp`, which is not included here. -/
structure FakeDataConsumerCfg where
  input : String
  queue_timeout_ms : Nat
  starting_int : Int
  ending_int : Int
deriving DecidableEq, Repr

/-- Modelled from the spec: the class `DAQSource<T>` is declared in a header that is not included
here.  An endpoint holds a "reference to the resolved buffer", "obtained once via the registry at
configuration time". -/
structure DAQSource where
  queue_ : appframework.shared_ptr
deriving DecidableEq, Repr

/-- The four member functions that the constructor registers as command handlers. -/
inductive CommandHandler where
  | do_configure
  | do_unconfigure
  | do_start
  | do_stop
deriving DecidableEq, Repr

/-- Modelled from the spec: `DAQModule::register_command(id, handler)` is declared in a header
that is not included here; it "replaces any existing handler for `id` (single active handler per
id)". -/
def register_command (commands : List (String × CommandHandler)) (id : String)
    (handler : CommandHandler) : List (String × CommandHandler) :=
  appframework.map_assign commands id handler

/-- The data members of `FakeDataConsumerDAQModule` that its command handlers and its work loop
use, and the command table of its base class.  `inputQueue_` is a `std::unique_ptr`, `none` being
null; `queueTimeout_` is a number of milliseconds.  The thread helper `thread_` is left out. -/
structure FakeDataConsumerDAQModule where
  name : String
  commands : List (String × CommandHandler)
  cfg_ : FakeDataConsumerCfg
  queueTimeout_ : Nat
  inputQueue_ : Option DAQSource
deriving DecidableEq, Repr

/-- The constructor `FakeDataConsumerDAQModule(name)`.  `cfg_` is default-initialised; its default
value `cfg0` is given by `TestStructs.hpp`. -/
def FakeDataConsumerDAQModule.construct (name : String) (cfg0 : FakeDataConsumerCfg) :
    FakeDataConsumerDAQModule :=
  { name := name
    commands :=
      register_command
        (register_command
          (register_command
            (register_command [] cmd.IdNames.conf CommandHandler.do_configure)
            cmd.IdNames.scrap CommandHandler.do_unconfigure)
          cmd.IdNames.start CommandHandler.do_start)
        cmd.IdNames.stop CommandHandler.do_stop
    cfg_ := cfg0
    queueTimeout_ := 100
    inputQueue_ := none }

/-- A module together with the process-wide queue registry its endpoints are resolved in. -/
structure Process where
  module : FakeDataConsumerDAQModule
  registry : appframework.QueueRegistry
deriving DecidableEq, Repr

/-- The `std::type_info` of `std::vector<int>`. -/
def vector_int : appframework.type_info := { name := "St6vectorIiSaIiEE" }

/-- The handler `do_configure(obj)`, the payload `obj` already converted to a
`FakeDataConsumerCfg`.  Modelled from the spec: the constructor of `DAQSource<std::vector<int>>`
resolves the name in the registry with `get_queue<std::vector<int>>`; an exception it throws leaves
`do_configure` after the assignment to `cfg_` and before the two others. -/
def do_configure (demangle : String → String) (obj : FakeDataConsumerCfg) (p : Process) :
    Except appframework.QueueError Unit × Process :=
  let m1 : FakeDataConsumerDAQModule := { p.module with cfg_ := obj }
  match appframework.get_queue demangle vector_int m1.cfg_.input p.registry with
  | (Except.ok q, registry1) =>
      (Except.ok (),
        { module := { m1 with inputQueue_ := some { queue_ := q },
                              queueTimeout_ := m1.cfg_.queue_timeout_ms },
          registry := registry1 })
  | (Except.error err, registry1) => (Except.error err, { module := m1, registry := registry1 })

/-- The handler `do_unconfigure(data_t)`: `inputQueue_.reset()`, then
`queueTimeout_ = std::chrono::milliseconds(100)`. -/
def do_unconfigure (p : Process) : Process :=
  { p with module := { p.module with inputQueue_ := none, queueTimeout_ := 100 } }

/-- A sequence of `conf` commands with the given payloads, whatever each does or throws. -/
def configure_all (demangle : String → String) : List FakeDataConsumerCfg → Process → Process
  | [], p => p
  | obj :: rest, p => configure_all demangle rest (do_configure demangle obj p).2

/-! ### The work loop -/

/-- The largest value of an `int` (32 bits). -/
def INT_MAX : Int := 2147483647

/-- The smallest value of an `int` (32 bits). -/
def INT_MIN : Int := -2147483648

/-- The increment `++x` of an `int`: `x + 1` below `INT_MAX`.  At `INT_MAX` the increment
overflows, which C++ leaves undefined; the value taken here is the one of two's-complement
hardware. -/
def increment (x : Int) : Int := if x = INT_MAX then INT_MIN else x + 1

/-- The two issues reported from inside the checking loop of `do_work`. -/
inductive Report where
  /-- `ers::warning(ConsumerErrorDetected(ERS_HERE, get_name(), counter, ii, current_int, point))`. -/
  | ConsumerErrorDetected (counter : Int) (ii : Nat) (current_int point : Int)
  /-- `ers::info(ConsumerProgressUpdate(..., "Jump detected at " + std::to_string(counter)))`. -/
  | JumpDetected (counter : Int)
deriving DecidableEq, Repr

/-- The variables of the loop `for (auto& point : vec)`, and the issues reported so far. -/
structure CheckState where
  current_int : Int
  failed : Bool
  ii : Nat
  reports : List Report
deriving DecidableEq, Repr

/-- The body of the loop `for (auto& point : vec)`, for one `point`. -/
def check_point (cfg : FakeDataConsumerCfg) (counter : Int) (st : CheckState) (point : Int) :
    CheckState :=
  let st1 : CheckState :=
    if point ≠ st.current_int then
      if st.ii ≠ 0 then
        { st with
            reports := st.reports ++
              [Report.ConsumerErrorDetected counter st.ii st.current_int point]
            failed := true
            current_int := point }
      else
        { st with
            reports := st.reports ++ [Report.JumpDetected counter]
            current_int := point }
    else st
  let next : Int := increment st1.current_int
  { st1 with
      current_int := if next > cfg.ending_int then cfg.starting_int else next
      ii := st1.ii + 1 }

/-- The check of one received vector: `bool failed = false; size_t ii = 0;` and the loop over
its elements. -/
def check_vector (cfg : FakeDataConsumerCfg) (counter current_int : Int) (vec : List Int) :
    CheckState :=
  vec.foldl (check_point cfg counter)
    { current_int := current_int, failed := false, ii := 0, reports := [] }

/-- The value that follows `p` when the producer walks through its range: `p + 1` as long as this
does not exceed `ending_int`, `starting_int` after that. -/
def cyclic_successor (cfg : FakeDataConsumerCfg) (p : Int) : Int :=
  if p + 1 ≤ cfg.ending_int then p + 1 else cfg.starting_int

/-- The local variables of `do_work` that live across iterations of its `while` loop, and the
issues reported by the checks so far.  (`vec` is written by each successful pop before it is read;
the progress messages, which decide nothing, are left out.) -/
structure WorkState where
  current_int : Int
  counter : Int
  fail_count : Int
  reports : List Report
deriving DecidableEq, Repr

/-- What one iteration of the `while` loop meets at the input queue. -/
inductive Observation where
  /-- The call `inputQueue_->can_pop()` returns false. -/
  | cannot_pop
  /-- The call `inputQueue_->pop(vec, queueTimeout_)` throws `QueueTimeoutExpired`. -/
  | pop_timed_out
  /-- The call `inputQueue_->pop(vec, queueTimeout_)` throws an exception of another type. -/
  | pop_threw (what : String)
  /-- The call `inputQueue_->pop(vec, queueTimeout_)` returns and has filled `vec`. -/
  | popped (vec : List Int)
deriving DecidableEq, Repr

/-- One iteration of the `while` loop of `do_work`, entered with the running flag set: the state
with which the loop goes back to test the flag, or the exception that leaves `do_work`. -/
def do_work_iteration (m : FakeDataConsumerDAQModule) (st : WorkState) :
    Observation → Except String WorkState
  | Observation.cannot_pop => Except.ok st
  | Observation.pop_timed_out => Except.ok st
  | Observation.pop_threw what => Except.error what
  | Observation.popped vec =>
      let checked := check_vector m.cfg_ st.counter st.current_int vec
      Except.ok
        { current_int := checked.current_int
          counter := increment st.counter
          fail_count := if checked.failed then increment st.fail_count else st.fail_count
          reports := st.reports ++ checked.reports }

/-- The `while (running_flag.load())` loop of `do_work`: the flag reads true once for each
observation of the list, then false. -/
def do_work_loop (m : FakeDataConsumerDAQModule) :
    List Observation → WorkState → Except String WorkState
  | [], st => Except.ok st
  | observation :: rest, st =>
      match do_work_iteration m st observation with
      | Except.ok st1 => do_work_loop m rest st1
      | Except.error what => Except.error what

/-- The function `do_work(running_flag)`: the counters it reports in its closing message. -/
def do_work (m : FakeDataConsumerDAQModule) (observations : List Observation) :
    Except String WorkState :=
  do_work_loop m observations
    { current_int := m.cfg_.starting_int, counter := 0, fail_count := 0, reports := [] }

end dunedaq.appfwk

namespace appframework

/-! ## Lemmas on maps -/

theorem map_find_assign_same {V : Type} (m : List (String × V)) (k : String) (v : V) :
    map_find (map_assign m k v) k = some v := by
  induction m with
  | nil => simp [map_assign, map_find]
  | cons hd tl ih =>
      obtain ⟨k1, v1⟩ := hd
      by_cases h : k1 = k
      · simp [map_assign, map_find, h]
      · simp [map_assign, map_find, h, ih]

theorem map_find_assign_other {V : Type} (m : List (String × V)) (k k2 : String) (v : V)
    (hne : k2 ≠ k) : map_find (map_assign m k v) k2 = map_find m k2 := by
  induction m with
  | nil =>
      have h : ¬ k = k2 := fun h => hne h.symm
      simp [map_assign, map_find, h]
  | cons hd tl ih =>
      obtain ⟨k1, v1⟩ := hd
      by_cases h : k1 = k
      · subst h
        have h2 : ¬ k1 = k2 := fun h => hne h.symm
        simp [map_assign, map_find, h2]
      · by_cases h3 : k1 = k2
        · subst h3
          simp [map_assign, map_find, h]
        · simp [map_assign, map_find, h, h3, ih]

/-! ## The three ways a call of `get_queue` ends -/

theorem get_queue_of_mismatch (demangle : String → String) (T : type_info) (name : String)
    (s : QueueRegistry) (err : QueueError)
    (h : get_queue_lookup demangle T name s = some err) :
    get_queue demangle T name s = (Except.error err, s) := by
  simp [get_queue, h]

theorem get_queue_of_no_config (demangle : String → String) (T : type_info) (name : String)
    (s : QueueRegistry) (h : get_queue_lookup demangle T name s = none)
    (hc : map_find s.queue_configmap_ name = none) :
    get_queue demangle T name s
      = (Except.error (QueueError.runtime_error "Queue not found"), s) := by
  simp [get_queue, h, hc]

theorem get_queue_of_unknown_kind (demangle : String → String) (T : type_info) (name : String)
    (s : QueueRegistry) (config : QueueConfig)
    (h : get_queue_lookup demangle T name s = none)
    (hc : map_find s.queue_configmap_ name = some config)
    (hk : config.kind ≠ queue_kind.std_deque) :
    get_queue demangle T name s
      = (Except.error (QueueError.runtime_error "Unknown queue kind"), s) := by
  cases hkind : config.kind with
  | std_deque => exact absurd hkind hk
  | other raw => simp [get_queue, h, hc, create_queue, hkind]

theorem get_queue_of_deque (demangle : String → String) (T : type_info) (name : String)
    (s : QueueRegistry) (config : QueueConfig)
    (h : get_queue_lookup demangle T name s = none)
    (hc : map_find s.queue_configmap_ name = some config)
    (hk : config.kind = queue_kind.std_deque) :
    get_queue demangle T name s
      = (Except.ok (some s.heap.length),
          { queue_registry_ :=
              map_assign s.queue_registry_ name { type := T, instance_ := some s.heap.length },
            queue_configmap_ := s.queue_configmap_,
            heap := s.heap ++ [{ elem := T, name := name, size := config.size }] }) := by
  simp [get_queue, h, hc, create_queue, hk, dynamic_pointer_cast]

/-! ## The invariant -/

theorem heap_lookup_append (heap : Heap) (o1 o : NamedStdDeQueue) (a : Nat)
    (h : heap[a]? = some o) : (heap ++ [o1])[a]? = some o := by
  have hlt : a < heap.length := by
    by_contra hge
    have : heap[a]? = none := List.getElem?_eq_none (Nat.le_of_not_lt hge)
    rw [this] at h
    cases h
  rw [List.getElem?_append_left hlt]
  exact h

theorem heap_lookup_new (heap : Heap) (o1 : NamedStdDeQueue) :
    (heap ++ [o1])[heap.length]? = some o1 := by
  simp

theorem get_queue_lookup_of_no_entry (demangle : String → String) (T : type_info)
    (name : String) (s : QueueRegistry) (h : map_find s.queue_registry_ name = none) :
    get_queue_lookup demangle T name s = none := by
  simp [get_queue_lookup, h]

theorem get_queue_lookup_of_entry (demangle : String → String) (T : type_info)
    (name : String) (s : QueueRegistry) (e : QueueEntry) (hs : s.Sound)
    (h : map_find s.queue_registry_ name = some e) :
    get_queue_lookup demangle T name s =
      if e.type = T then none
      else some (QueueError.QueueTypeMismatch name (demangle e.type.name) (demangle T.name)) := by
  obtain ⟨⟨a, o, ha, ho, hty⟩, _⟩ := hs name e h
  by_cases hT : e.type = T
  · simp [get_queue_lookup, h, dynamic_pointer_cast, ha, ho, hty, hT]
  · simp [get_queue_lookup, h, dynamic_pointer_cast, ha, ho, hty, hT]

theorem sound_configured (configmap : List (String × QueueConfig)) :
    (QueueRegistry.configured configmap).Sound := by
  intro name e h
  simp [QueueRegistry.configured, map_find] at h

theorem sound_get_queue (demangle : String → String) (T : type_info) (name : String)
    (s : QueueRegistry) (hs : s.Sound) : (get_queue demangle T name s).2.Sound := by
  cases hl : get_queue_lookup demangle T name s with
  | some err => rw [get_queue_of_mismatch demangle T name s err hl]; exact hs
  | none =>
      cases hc : map_find s.queue_configmap_ name with
      | none => rw [get_queue_of_no_config demangle T name s hl hc]; exact hs
      | some config =>
          by_cases hk : config.kind = queue_kind.std_deque
          · rw [get_queue_of_deque demangle T name s config hl hc hk]
            intro name2 e2 h2
            by_cases hn : name2 = name
            · subst hn
              rw [map_find_assign_same] at h2
              cases h2
              exact ⟨⟨s.heap.length, _, rfl, heap_lookup_new _ _, rfl⟩, config, hc⟩
            · rw [map_find_assign_other _ _ _ _ hn] at h2
              obtain ⟨⟨a, o, ha, ho, hty⟩, hcfg⟩ := hs name2 e2 h2
              exact ⟨⟨a, o, ha, heap_lookup_append _ _ _ _ ho, hty⟩, hcfg⟩
          · rw [get_queue_of_unknown_kind demangle T name s config hl hc hk]; exact hs

theorem sound_get_queue_calls (demangle : String → String) (calls : List (type_info × String)) :
    ∀ s : QueueRegistry, s.Sound → (get_queue_calls demangle calls s).Sound := by
  induction calls with
  | nil => intro s hs; exact hs
  | cons c rest ih =>
      intro s hs
      obtain ⟨T, name⟩ := c
      exact ih _ (sound_get_queue demangle T name s hs)

/-- In a sound registry a request for the recorded type of an existing, configured entry does not
hand out the stored instance: it builds a new object and puts it in the place of the old one. -/
theorem get_queue_rebuilds (demangle : String → String) (name : String) (s : QueueRegistry)
    (e : QueueEntry) (config : QueueConfig) (hs : s.Sound)
    (h : map_find s.queue_registry_ name = some e)
    (hc : map_find s.queue_configmap_ name = some config)
    (hk : config.kind = queue_kind.std_deque) :
    (get_queue demangle e.type name s).1 = Except.ok (some s.heap.length) ∧
      e.instance_ ≠ some s.heap.length ∧
      map_find (get_queue demangle e.type name s).2.queue_registry_ name
        = some { type := e.type, instance_ := some s.heap.length } := by
  have hl : get_queue_lookup demangle e.type name s = none := by
    rw [get_queue_lookup_of_entry demangle e.type name s e hs h]; simp
  rw [get_queue_of_deque demangle e.type name s config hl hc hk]
  refine ⟨rfl, ?_, map_find_assign_same _ _ _⟩
  obtain ⟨⟨a, o, ha, ho, _⟩, _⟩ := hs name e h
  intro heq
  rw [ha] at heq
  cases heq
  simp at ho

/-! ## Theorems on `get_queue` and `create_queue` -/

/-- C1, evaluated on the code: the registry in which "q" has an entry of element type "i" with
instance 0 is the one a first `get_queue<i>("q")` leaves; a second `get_queue<i>("q")` on it returns
instance 1, a newly built object, and registers it in the place of instance 0. -/
theorem get_queue_existing_entry_not_returned :
    get_queue id { name := "i" } "q"
        (QueueRegistry.configured [("q", { kind := queue_kind.std_deque, size := 10 })])
      = (Except.ok (some 0),
          { queue_registry_ := [("q", { type := { name := "i" }, instance_ := some 0 })],
            queue_configmap_ := [("q", { kind := queue_kind.std_deque, size := 10 })],
            heap := [{ elem := { name := "i" }, name := "q", size := 10 }] }) ∧
    get_queue id { name := "i" } "q"
        { queue_registry_ := [("q", { type := { name := "i" }, instance_ := some 0 })],
          queue_configmap_ := [("q", { kind := queue_kind.std_deque, size := 10 })],
          heap := [{ elem := { name := "i" }, name := "q", size := 10 }] }
      = (Except.ok (some 1),
          { queue_registry_ := [("q", { type := { name := "i" }, instance_ := some 1 })],
            queue_configmap_ := [("q", { kind := queue_kind.std_deque, size := 10 })],
            heap := [{ elem := { name := "i" }, name := "q", size := 10 },
                     { elem := { name := "i" }, name := "q", size := 10 }] }) := by
  decide

/-- C2, evaluated on the code: starting from the empty registry configured for "ints", three calls
`get_queue<i>("ints")` construct three objects, and the instance registered under "ints" is
replaced by each call after the first (0, then 1, then 2). -/
theorem get_queue_calls_construct_again :
    (map_find (get_queue_calls id [({ name := "i" }, "ints")]
        (QueueRegistry.configured [("ints", { kind := queue_kind.std_deque, size := 2 })])
        ).queue_registry_ "ints").map QueueEntry.instance_ = some (some 0) ∧
    (map_find (get_queue_calls id [({ name := "i" }, "ints"), ({ name := "i" }, "ints")]
        (QueueRegistry.configured [("ints", { kind := queue_kind.std_deque, size := 2 })])
        ).queue_registry_ "ints").map QueueEntry.instance_ = some (some 1) ∧
    (map_find (get_queue_calls id
        [({ name := "i" }, "ints"), ({ name := "i" }, "ints"), ({ name := "i" }, "ints")]
        (QueueRegistry.configured [("ints", { kind := queue_kind.std_deque, size := 2 })])
        ).queue_registry_ "ints").map QueueEntry.instance_ = some (some 2) ∧
    (get_queue_calls id
        [({ name := "i" }, "ints"), ({ name := "i" }, "ints"), ({ name := "i" }, "ints")]
        (QueueRegistry.configured [("ints", { kind := queue_kind.std_deque, size := 2 })])
        ).heap.length = 3 := by
  decide

/-- C3: when `get_queue<T1>(q)` has succeeded, a call `get_queue<T2>(q)` with `T2` different from
`T1` throws `QueueTypeMismatch` carrying `q`, the demangled name of `T1` as source and the demangled
name of `T2` as target, returns no handle and leaves the registry as it was; this holds whatever
the configuration table contains at the second call. -/
theorem get_queue_type_mismatch (demangle : String → String) (T1 T2 : type_info) (q : String)
    (s s1 : QueueRegistry) (p : shared_ptr) (configmap : List (String × QueueConfig))
    (hne : T1 ≠ T2) (h1 : get_queue demangle T1 q s = (Except.ok p, s1)) :
    get_queue demangle T2 q { s1 with queue_configmap_ := configmap }
      = (Except.error (QueueError.QueueTypeMismatch q (demangle T1.name) (demangle T2.name)),
          { s1 with queue_configmap_ := configmap }) := by
  cases hl : get_queue_lookup demangle T1 q s with
  | some err => rw [get_queue_of_mismatch demangle T1 q s err hl] at h1; cases h1
  | none =>
      cases hc : map_find s.queue_configmap_ q with
      | none => rw [get_queue_of_no_config demangle T1 q s hl hc] at h1; cases h1
      | some config =>
          by_cases hk : config.kind = queue_kind.std_deque
          · rw [get_queue_of_deque demangle T1 q s config hl hc hk] at h1
            cases h1
            apply get_queue_of_mismatch
            simp [get_queue_lookup, map_find_assign_same, dynamic_pointer_cast, hne]
          · rw [get_queue_of_unknown_kind demangle T1 q s config hl hc hk] at h1; cases h1

theorem get_queue_type_mismatch_witness :
    ({ name := "i" } : type_info) ≠ { name := "d" } ∧
    get_queue id { name := "i" } "q"
        (QueueRegistry.configured [("q", { kind := queue_kind.std_deque, size := 10 })])
      = (Except.ok (some 0),
          { queue_registry_ := [("q", { type := { name := "i" }, instance_ := some 0 })],
            queue_configmap_ := [("q", { kind := queue_kind.std_deque, size := 10 })],
            heap := [{ elem := { name := "i" }, name := "q", size := 10 }] }) ∧
    get_queue id { name := "d" } "q"
        { queue_registry_ := [("q", { type := { name := "i" }, instance_ := some 0 })],
          queue_configmap_ := [],
          heap := [{ elem := { name := "i" }, name := "q", size := 10 }] }
      = (Except.error (QueueError.QueueTypeMismatch "q" "i" "d"),
          { queue_registry_ := [("q", { type := { name := "i" }, instance_ := some 0 })],
            queue_configmap_ := [],
            heap := [{ elem := { name := "i" }, name := "q", size := 10 }] }) :=
  ⟨by decide, by decide,
    get_queue_type_mismatch id { name := "i" } { name := "d" } "q"
      (QueueRegistry.configured [("q", { kind := queue_kind.std_deque, size := 10 })])
      { queue_registry_ := [("q", { type := { name := "i" }, instance_ := some 0 })],
        queue_configmap_ := [("q", { kind := queue_kind.std_deque, size := 10 })],
        heap := [{ elem := { name := "i" }, name := "q", size := 10 }] }
      (some 0) [] (by decide) (by decide)⟩

/-- C4: for a name without an entry whose configuration has the kind `std_deque`,
`get_queue<T>(name)` returns a non-null handle; afterwards the entry of `name` records the type `T`
and that same handle as its instance, and the handle points to a queue object of element type `T`
named `name` whose capacity is the configured size. -/
theorem get_queue_first_access (demangle : String → String) (T : type_info) (name : String)
    (s : QueueRegistry) (config : QueueConfig)
    (hn : map_find s.queue_registry_ name = none)
    (hc : map_find s.queue_configmap_ name = some config)
    (hk : config.kind = queue_kind.std_deque) :
    (get_queue demangle T name s).1 = Except.ok (some s.heap.length) ∧
      map_find (get_queue demangle T name s).2.queue_registry_ name
        = some { type := T, instance_ := some s.heap.length } ∧
      (get_queue demangle T name s).2.heap[s.heap.length]?
        = some { elem := T, name := name, size := config.size } := by
  rw [get_queue_of_deque demangle T name s config
    (get_queue_lookup_of_no_entry demangle T name s hn) hc hk]
  exact ⟨rfl, map_find_assign_same _ _ _, heap_lookup_new _ _⟩

theorem get_queue_first_access_witness :
    map_find (QueueRegistry.configured
        [("ints", { kind := queue_kind.std_deque, size := 2 })]).queue_registry_ "ints" = none ∧
    map_find (QueueRegistry.configured
        [("ints", { kind := queue_kind.std_deque, size := 2 })]).queue_configmap_ "ints"
      = some { kind := queue_kind.std_deque, size := 2 } ∧
    ((get_queue id { name := "i" } "ints" (QueueRegistry.configured
          [("ints", { kind := queue_kind.std_deque, size := 2 })])).1 = Except.ok (some 0) ∧
      map_find (get_queue id { name := "i" } "ints" (QueueRegistry.configured
          [("ints", { kind := queue_kind.std_deque, size := 2 })])).2.queue_registry_ "ints"
        = some { type := { name := "i" }, instance_ := some 0 } ∧
      (get_queue id { name := "i" } "ints" (QueueRegistry.configured
          [("ints", { kind := queue_kind.std_deque, size := 2 })])).2.heap[0]?
        = some { elem := { name := "i" }, name := "ints", size := 2 }) :=
  ⟨by decide, by decide,
    get_queue_first_access id { name := "i" } "ints"
      (QueueRegistry.configured [("ints", { kind := queue_kind.std_deque, size := 2 })])
      { kind := queue_kind.std_deque, size := 2 } (by decide) (by decide) rfl⟩

/-- C5: for every registry and every `T`, `get_queue<T>(name)` on a name with neither an entry nor
a configuration throws "Queue not found" and leaves the registry as it was; and in every state
reached from a newly configured registry by calls of `get_queue`, a call that throws
"Queue not found" was made on a name with neither an entry nor a configuration. -/
theorem get_queue_not_found (demangle : String → String) :
    (∀ (T : type_info) (name : String) (s : QueueRegistry),
      map_find s.queue_registry_ name = none → map_find s.queue_configmap_ name = none →
      get_queue demangle T name s
        = (Except.error (QueueError.runtime_error "Queue not found"), s)) ∧
    (∀ (configmap : List (String × QueueConfig)) (calls : List (type_info × String))
      (T : type_info) (name : String),
      (get_queue demangle T name
          (get_queue_calls demangle calls (QueueRegistry.configured configmap))).1
        = Except.error (QueueError.runtime_error "Queue not found") →
      map_find (get_queue_calls demangle calls
          (QueueRegistry.configured configmap)).queue_registry_ name = none ∧
      map_find (get_queue_calls demangle calls
          (QueueRegistry.configured configmap)).queue_configmap_ name = none) := by
  constructor
  · intro T name s hn hc
    exact get_queue_of_no_config demangle T name s
      (get_queue_lookup_of_no_entry demangle T name s hn) hc
  · intro configmap calls T name
    have hs := sound_get_queue_calls demangle calls _ (sound_configured configmap)
    generalize get_queue_calls demangle calls (QueueRegistry.configured configmap) = s at hs
    intro h
    cases hc : map_find s.queue_configmap_ name with
    | none =>
        refine ⟨?_, rfl⟩
        cases hr : map_find s.queue_registry_ name with
        | none => rfl
        | some e =>
            obtain ⟨_, config, hcfg⟩ := hs name e hr
            rw [hc] at hcfg
            cases hcfg
    | some config =>
        exfalso
        cases hl : get_queue_lookup demangle T name s with
        | some err =>
            rw [get_queue_of_mismatch demangle T name s err hl] at h
            cases hr : map_find s.queue_registry_ name with
            | none => rw [get_queue_lookup_of_no_entry demangle T name s hr] at hl; cases hl
            | some e =>
                rw [get_queue_lookup_of_entry demangle T name s e hs hr] at hl
                split at hl
                · cases hl
                · cases hl; cases h
        | none =>
            by_cases hk : config.kind = queue_kind.std_deque
            · rw [get_queue_of_deque demangle T name s config hl hc hk] at h; cases h
            · rw [get_queue_of_unknown_kind demangle T name s config hl hc hk] at h
              have hwhat : ("Unknown queue kind" : String) = "Queue not found" := by
                injection h with h; injection h
              exact absurd hwhat (by decide)

theorem get_queue_not_found_witness :
    (map_find (QueueRegistry.configured
        [("q", { kind := queue_kind.std_deque, size := 10 })]).queue_registry_ "r" = none ∧
      map_find (QueueRegistry.configured
        [("q", { kind := queue_kind.std_deque, size := 10 })]).queue_configmap_ "r" = none ∧
      get_queue id { name := "i" } "r"
          (QueueRegistry.configured [("q", { kind := queue_kind.std_deque, size := 10 })])
        = (Except.error (QueueError.runtime_error "Queue not found"),
            QueueRegistry.configured [("q", { kind := queue_kind.std_deque, size := 10 })])) ∧
    ((get_queue id { name := "d" } "r"
          (get_queue_calls id [({ name := "i" }, "q")]
            (QueueRegistry.configured [("q", { kind := queue_kind.std_deque, size := 10 })]))).1
        = Except.error (QueueError.runtime_error "Queue not found") ∧
      map_find (get_queue_calls id [({ name := "i" }, "q")]
          (QueueRegistry.configured
            [("q", { kind := queue_kind.std_deque, size := 10 })])).queue_registry_ "r" = none ∧
      map_find (get_queue_calls id [({ name := "i" }, "q")]
          (QueueRegistry.configured
            [("q", { kind := queue_kind.std_deque, size := 10 })])).queue_configmap_ "r" = none) :=
  ⟨⟨by decide, by decide,
      (get_queue_not_found id).1 { name := "i" } "r"
        (QueueRegistry.configured [("q", { kind := queue_kind.std_deque, size := 10 })])
        (by decide) (by decide)⟩,
    ⟨by decide,
      (get_queue_not_found id).2 [("q", { kind := queue_kind.std_deque, size := 10 })]
        [({ name := "i" }, "q")] { name := "d" } "r" (by decide)⟩⟩

/-- C6: the result of `create_queue<T>(name, config)` is determined by `T`, `name`, `config` and the
next free address alone.  For the kind `std_deque` it returns a pointer to a newly allocated deque
queue of element type `T` with the given name and capacity `config.size`; for every other kind it
throws "Unknown queue kind", returns nothing and allocates nothing. -/
theorem create_queue_by_kind (T : type_info) (name : String) (config : QueueConfig)
    (heap : Heap) :
    (config.kind = queue_kind.std_deque →
      create_queue T name config heap
        = (Except.ok (some heap.length),
            heap ++ [{ elem := T, name := name, size := config.size }])) ∧
    (config.kind ≠ queue_kind.std_deque →
      create_queue T name config heap
        = (Except.error (QueueError.runtime_error "Unknown queue kind"), heap)) := by
  cases hk : config.kind with
  | std_deque => simp [create_queue, hk]
  | other raw => simp [create_queue, hk]

theorem create_queue_by_kind_witness :
    (({ kind := queue_kind.std_deque, size := 7 } : QueueConfig).kind = queue_kind.std_deque ∧
      create_queue { name := "i" } "q" { kind := queue_kind.std_deque, size := 7 } []
        = (Except.ok (some 0), [{ elem := { name := "i" }, name := "q", size := 7 }])) ∧
    (({ kind := queue_kind.other 1, size := 7 } : QueueConfig).kind ≠ queue_kind.std_deque ∧
      create_queue { name := "i" } "q" { kind := queue_kind.other 1, size := 7 } []
        = (Except.error (QueueError.runtime_error "Unknown queue kind"), [])) :=
  ⟨⟨rfl, (create_queue_by_kind { name := "i" } "q"
        { kind := queue_kind.std_deque, size := 7 } []).1 rfl⟩,
    ⟨by decide, (create_queue_by_kind { name := "i" } "q"
        { kind := queue_kind.other 1, size := 7 } []).2 (by decide)⟩⟩

/-- In a sound registry no call of `get_queue` changes the type recorded for a name that has an
entry. -/
theorem get_queue_keeps_type_of_sound (demangle : String → String) (s : QueueRegistry)
    (hs : s.Sound) (n : String) (e : QueueEntry) (T2 : type_info) (m : String)
    (h : map_find s.queue_registry_ n = some e) :
    (map_find (get_queue demangle T2 m s).2.queue_registry_ n).map QueueEntry.type
      = some e.type := by
  cases hl : get_queue_lookup demangle T2 m s with
  | some err => rw [get_queue_of_mismatch demangle T2 m s err hl]; simp [h]
  | none =>
      cases hc : map_find s.queue_configmap_ m with
      | none => rw [get_queue_of_no_config demangle T2 m s hl hc]; simp [h]
      | some config =>
          by_cases hk : config.kind = queue_kind.std_deque
          · rw [get_queue_of_deque demangle T2 m s config hl hc hk]
            by_cases hn : n = m
            · subst hn
              rw [get_queue_lookup_of_entry demangle T2 n s e hs h] at hl
              have hT : e.type = T2 := by
                by_contra hne
                simp [hne] at hl
              simp [map_find_assign_same, hT]
            · simp [map_find_assign_other _ _ _ _ hn, h]
          · rw [get_queue_of_unknown_kind demangle T2 m s config hl hc hk]; simp [h]

/-- C7: in every state reached from a newly configured registry by calls of `get_queue`, for every
name `n` that has an entry and every further call `get_queue<T2>(m)`, whether it returns or throws,
`n` still has an entry after the call and the type recorded in it is the one recorded before. -/
theorem get_queue_keeps_type (demangle : String → String)
    (configmap : List (String × QueueConfig)) (calls : List (type_info × String))
    (n : String) (e : QueueEntry) (T2 : type_info) (m : String)
    (h : map_find (get_queue_calls demangle calls
          (QueueRegistry.configured configmap)).queue_registry_ n = some e) :
    (map_find (get_queue demangle T2 m (get_queue_calls demangle calls
          (QueueRegistry.configured configmap))).2.queue_registry_ n).map QueueEntry.type
      = some e.type :=
  get_queue_keeps_type_of_sound demangle _
    (sound_get_queue_calls demangle calls _ (sound_configured configmap)) n e T2 m h

theorem get_queue_keeps_type_witness :
    map_find (get_queue_calls id [({ name := "i" }, "q")]
        (QueueRegistry.configured
          [("q", { kind := queue_kind.std_deque, size := 10 })])).queue_registry_ "q"
      = some { type := { name := "i" }, instance_ := some 0 } ∧
    (map_find (get_queue id { name := "i" } "q" (get_queue_calls id [({ name := "i" }, "q")]
        (QueueRegistry.configured
          [("q", { kind := queue_kind.std_deque, size := 10 })]))).2.queue_registry_ "q").map
        QueueEntry.type
      = some (QueueEntry.type { type := { name := "i" }, instance_ := some 0 }) :=
  ⟨by decide,
    get_queue_keeps_type id [("q", { kind := queue_kind.std_deque, size := 10 })]
      [({ name := "i" }, "q")] "q" { type := { name := "i" }, instance_ := some 0 }
      { name := "i" } "q" (by decide)⟩

end appframework

namespace dunedaq.appfwk.cmd

/-! ## Theorems on `toId` and `str` -/

theorem toId_of_not_mem (s : String)
    (hn : s ∉ ["exec", "init", "conf", "start", "stop", "scrap", "fina", "term", "undef"]) :
    toId s = Except.error ("no Id enum for " ++ s) := by
  simp only [List.mem_cons, List.mem_singleton, List.not_mem_nil, or_false, not_or] at hn
  obtain ⟨h1, h2, h3, h4, h5, h6, h7, h8, h9⟩ := hn
  have e1 : ¬ "exec" = s := fun h => h1 h.symm
  have e2 : ¬ "init" = s := fun h => h2 h.symm
  have e3 : ¬ "conf" = s := fun h => h3 h.symm
  have e4 : ¬ "start" = s := fun h => h4 h.symm
  have e5 : ¬ "stop" = s := fun h => h5 h.symm
  have e6 : ¬ "scrap" = s := fun h => h6 h.symm
  have e7 : ¬ "fina" = s := fun h => h7 h.symm
  have e8 : ¬ "term" = s := fun h => h8 h.symm
  have e9 : ¬ "undef" = s := fun h => h9 h.symm
  simp [toId, s2id, appframework.map_find, e1, e2, e3, e4, e5, e6, e7, e8, e9]

theorem toId_of_mem (s : String)
    (hm : s ∈ ["exec", "init", "conf", "start", "stop", "scrap", "fina", "term", "undef"]) :
    (∃ id, toId s = Except.ok id) ∧ (toId s = Except.ok Id.undef ↔ s = "undef") := by
  simp only [List.mem_cons, List.mem_singleton, List.not_mem_nil, or_false] at hm
  rcases hm with rfl | rfl | rfl | rfl | rfl | rfl | rfl | rfl | rfl
  · exact ⟨⟨Id.exec, by decide⟩, by decide⟩
  · exact ⟨⟨Id.init, by decide⟩, by decide⟩
  · exact ⟨⟨Id.conf, by decide⟩, by decide⟩
  · exact ⟨⟨Id.start, by decide⟩, by decide⟩
  · exact ⟨⟨Id.stop, by decide⟩, by decide⟩
  · exact ⟨⟨Id.scrap, by decide⟩, by decide⟩
  · exact ⟨⟨Id.fina, by decide⟩, by decide⟩
  · exact ⟨⟨Id.term, by decide⟩, by decide⟩
  · exact ⟨⟨Id.undef, by decide⟩, by decide⟩

/-- C8: `toId(s)` returns an identifier exactly when `s` is one of the nine names "exec", "init",
"conf", "start", "stop", "scrap", "fina", "term", "undef"; on every other string, the empty one and
other spellings included, it throws the error "no Id enum for " followed by the string; and it
returns `Id::undef` exactly when `s` is "undef". -/
theorem toId_succeeds_exactly (s : String) :
    ((∃ id, toId s = Except.ok id) ↔
      s ∈ ["exec", "init", "conf", "start", "stop", "scrap", "fina", "term", "undef"]) ∧
    (toId s = Except.error ("no Id enum for " ++ s) ↔
      s ∉ ["exec", "init", "conf", "start", "stop", "scrap", "fina", "term", "undef"]) ∧
    (toId s = Except.ok Id.undef ↔ s = "undef") ∧
    toId "" = Except.error "no Id enum for " ∧
    toId "Undef" = Except.error "no Id enum for Undef" ∧
    toId "CONF" = Except.error "no Id enum for CONF" := by
  refine ⟨?_, ?_, ?_, by decide, by decide, by decide⟩
  · constructor
    · rintro ⟨id, hid⟩
      by_contra hn
      rw [toId_of_not_mem s hn] at hid
      cases hid
    · intro hm
      exact (toId_of_mem s hm).1
  · constructor
    · intro he hm
      obtain ⟨id, hid⟩ := (toId_of_mem s hm).1
      rw [he] at hid
      cases hid
    · exact toId_of_not_mem s
  · by_cases hm : s ∈ ["exec", "init", "conf", "start", "stop", "scrap", "fina", "term", "undef"]
    · exact (toId_of_mem s hm).2
    · constructor
      · intro he
        rw [toId_of_not_mem s hm] at he
        cases he
      · intro he
        subst he
        exact absurd (by decide) hm

/-- C9: on each of the nine enumerators `str(id)` returns a name without throwing and `toId` of
that name returns `id`; hence two enumerators with the same name are equal. -/
theorem toId_str (id : Id) (h : id ∈ Id.enumerators) :
    (∃ name, str id = Except.ok name ∧ toId name = Except.ok id) ∧
    (∀ id2, id2 ∈ Id.enumerators → str id2 = str id → id2 = id) := by
  have key : ∀ i, i ∈ Id.enumerators → ∃ name, str i = Except.ok name ∧ toId name = Except.ok i := by
    intro i hi
    simp only [Id.enumerators, List.mem_cons, List.mem_singleton, List.not_mem_nil, or_false] at hi
    rcases hi with rfl | rfl | rfl | rfl | rfl | rfl | rfl | rfl | rfl
    · exact ⟨"exec", by decide, by decide⟩
    · exact ⟨"init", by decide, by decide⟩
    · exact ⟨"conf", by decide, by decide⟩
    · exact ⟨"start", by decide, by decide⟩
    · exact ⟨"stop", by decide, by decide⟩
    · exact ⟨"scrap", by decide, by decide⟩
    · exact ⟨"fina", by decide, by decide⟩
    · exact ⟨"term", by decide, by decide⟩
    · exact ⟨"undef", by decide, by decide⟩
  refine ⟨key id h, ?_⟩
  intro id2 h2 heq
  obtain ⟨n1, hs1, ht1⟩ := key id h
  obtain ⟨n2, hs2, ht2⟩ := key id2 h2
  rw [hs1, hs2] at heq
  cases heq
  rw [ht1] at ht2
  cases ht2
  rfl

theorem toId_str_witness :
    Id.scrap ∈ Id.enumerators ∧
    ((∃ name, str Id.scrap = Except.ok name ∧ toId name = Except.ok Id.scrap) ∧
      (∀ id2, id2 ∈ Id.enumerators → str id2 = str Id.scrap → id2 = Id.scrap)) :=
  ⟨by decide, toId_str Id.scrap (by decide)⟩

end dunedaq.appfwk.cmd

namespace appframework

/-! ## Theorems on the bounded buffer -/

/-- C10: a push onto a buffer whose size equals its capacity, with any timeout, fails with
`QueueTimeoutExpired` and leaves the buffer as it was: the same contents, and a size still equal to
the capacity. -/
theorem push_full_times_out {T : Type} (value : T) (timeout : Nat) (b : DequeBuffer T)
    (hfull : b.size = b.capacity) :
    DequeBuffer.push value timeout b = (Except.error BufferError.QueueTimeoutExpired, b) ∧
      (DequeBuffer.push value timeout b).2.items = b.items ∧
      (DequeBuffer.push value timeout b).2.size = (DequeBuffer.push value timeout b).2.capacity := by
  have hf : b.full = true := by simp [DequeBuffer.full, hfull]
  have key : DequeBuffer.push value timeout b
      = (Except.error BufferError.QueueTimeoutExpired, b) := by
    induction timeout with
    | zero => simp [DequeBuffer.push, hf]
    | succ n ih => simp [DequeBuffer.push, hf, ih]
  rw [key]
  exact ⟨rfl, rfl, hfull⟩

theorem push_full_times_out_witness :
    DequeBuffer.size { items := [1, 2], capacity := 2, push_timeout := 50, pop_timeout := 50 }
      = DequeBuffer.capacity
          { items := [1, 2], capacity := 2, push_timeout := 50, pop_timeout := 50 } ∧
    (DequeBuffer.push 3 50
        { items := [1, 2], capacity := 2, push_timeout := 50, pop_timeout := 50 }
      = (Except.error BufferError.QueueTimeoutExpired,
          { items := [1, 2], capacity := 2, push_timeout := 50, pop_timeout := 50 }) ∧
      (DequeBuffer.push 3 50
        { items := [1, 2], capacity := 2, push_timeout := 50, pop_timeout := 50 }).2.items
        = [1, 2] ∧
      DequeBuffer.size (DequeBuffer.push 3 50
        { items := [1, 2], capacity := 2, push_timeout := 50, pop_timeout := 50 }).2
        = DequeBuffer.capacity (DequeBuffer.push 3 50
          { items := [1, 2], capacity := 2, push_timeout := 50, pop_timeout := 50 }).2) :=
  ⟨rfl, push_full_times_out (3 : Nat) 50
      { items := [1, 2], capacity := 2, push_timeout := 50, pop_timeout := 50 } rfl⟩

end appframework

namespace appframework

/-- C11: on an empty buffer (of positive capacity, as every buffer has) a push of any value `v`,
with any timeout, succeeds and leaves a buffer of size 1; a pop that follows, with any timeout,
succeeds, returns `v` and leaves the buffer empty again. -/
theorem push_then_pop {T : Type} (v : T) (push_timeout pop_timeout : Nat) (b : DequeBuffer T)
    (hempty : b.items = []) (hcap : 0 < b.capacity) :
    (DequeBuffer.push v push_timeout b).1 = Except.ok () ∧
      (DequeBuffer.push v push_timeout b).2.size = 1 ∧
      DequeBuffer.pop pop_timeout (DequeBuffer.push v push_timeout b).2
        = (Except.ok v, b) := by
  have hf : b.full = false := by
    simp [DequeBuffer.full, DequeBuffer.size, hempty]
    omega
  have hpush : DequeBuffer.push v push_timeout b = (Except.ok (), { b with items := [v] }) := by
    cases push_timeout <;> simp [DequeBuffer.push, hf, hempty]
  rw [hpush]
  refine ⟨rfl, rfl, ?_⟩
  cases pop_timeout <;> simp [DequeBuffer.pop, ← hempty]

theorem push_then_pop_witness :
    (({ items := [], capacity := 2, push_timeout := 100, pop_timeout := 100 } :
        DequeBuffer Int).items = [] ∧
      0 < ({ items := [], capacity := 2, push_timeout := 100, pop_timeout := 100 } :
        DequeBuffer Int).capacity) ∧
    ((DequeBuffer.push (999 : Int) 100
        { items := [], capacity := 2, push_timeout := 100, pop_timeout := 100 }).1
        = Except.ok () ∧
      (DequeBuffer.push (999 : Int) 100
        { items := [], capacity := 2, push_timeout := 100, pop_timeout := 100 }).2.size = 1 ∧
      DequeBuffer.pop 100 (DequeBuffer.push (999 : Int) 100
        { items := [], capacity := 2, push_timeout := 100, pop_timeout := 100 }).2
        = (Except.ok 999,
            { items := [], capacity := 2, push_timeout := 100, pop_timeout := 100 })) :=
  ⟨⟨rfl, by decide⟩,
    push_then_pop (999 : Int) 100 100
      { items := [], capacity := 2, push_timeout := 100, pop_timeout := 100 } rfl (by decide)⟩

/-- C12: a pop from an empty buffer, with any timeout, returns no value: it fails with
`QueueTimeoutExpired`, and the buffer it leaves is the buffer it found, still empty. -/
theorem pop_empty_times_out {T : Type} (timeout : Nat) (b : DequeBuffer T)
    (hempty : b.empty = true) :
    DequeBuffer.pop timeout b = (Except.error BufferError.QueueTimeoutExpired, b) ∧
      (DequeBuffer.pop timeout b).2.empty = true ∧ (DequeBuffer.pop timeout b).2.size = 0 := by
  have hitems : b.items = [] := by
    simpa [DequeBuffer.empty, List.isEmpty_iff] using hempty
  have key : DequeBuffer.pop timeout b = (Except.error BufferError.QueueTimeoutExpired, b) := by
    induction timeout with
    | zero => simp [DequeBuffer.pop, hitems]
    | succ n ih => simp [DequeBuffer.pop, hitems, ih]
  rw [key]
  exact ⟨rfl, hempty, by simp [DequeBuffer.size, hitems]⟩

theorem pop_empty_times_out_witness :
    DequeBuffer.empty ({ items := [], capacity := 2, push_timeout := 100, pop_timeout := 100 } :
        DequeBuffer Int) = true ∧
    (DequeBuffer.pop 100 ({ items := [], capacity := 2, push_timeout := 100, pop_timeout := 100 } :
        DequeBuffer Int)
      = (Except.error BufferError.QueueTimeoutExpired,
          { items := [], capacity := 2, push_timeout := 100, pop_timeout := 100 }) ∧
      (DequeBuffer.pop 100
        ({ items := [], capacity := 2, push_timeout := 100, pop_timeout := 100 } :
          DequeBuffer Int)).2.empty = true ∧
      (DequeBuffer.pop 100
        ({ items := [], capacity := 2, push_timeout := 100, pop_timeout := 100 } :
          DequeBuffer Int)).2.size = 0) :=
  ⟨rfl, pop_empty_times_out 100
      { items := [], capacity := 2, push_timeout := 100, pop_timeout := 100 } rfl⟩

end appframework

namespace appframework

/-! ## Failing calls and the frame of `get_queue` -/

/-- C16: whenever `get_queue<T>(name)` throws, whichever of the three exceptions it is, the
registry after the call is the registry before it: the table of entries and the table of
configurations are identical, and nothing has been allocated. -/
theorem get_queue_failure_atomic (demangle : String → String) (T : type_info) (name : String)
    (s : QueueRegistry) (err : QueueError)
    (h : (get_queue demangle T name s).1 = Except.error err) :
    (get_queue demangle T name s).2 = s ∧
      (get_queue demangle T name s).2.queue_registry_ = s.queue_registry_ ∧
      (get_queue demangle T name s).2.queue_configmap_ = s.queue_configmap_ := by
  have key : (get_queue demangle T name s).2 = s := by
    cases hl : get_queue_lookup demangle T name s with
    | some err1 => rw [get_queue_of_mismatch demangle T name s err1 hl]
    | none =>
        cases hc : map_find s.queue_configmap_ name with
        | none => rw [get_queue_of_no_config demangle T name s hl hc]
        | some config =>
            by_cases hk : config.kind = queue_kind.std_deque
            · rw [get_queue_of_deque demangle T name s config hl hc hk] at h
              cases h
            · rw [get_queue_of_unknown_kind demangle T name s config hl hc hk]
  rw [key]
  exact ⟨rfl, rfl, rfl⟩

theorem get_queue_failure_atomic_witness :
    (get_queue id { name := "d" } "q"
        { queue_registry_ := [("q", { type := { name := "i" }, instance_ := some 0 })],
          queue_configmap_ := [("q", { kind := queue_kind.std_deque, size := 10 })],
          heap := [{ elem := { name := "i" }, name := "q", size := 10 }] }).1
      = Except.error (QueueError.QueueTypeMismatch "q" "i" "d") ∧
    ((get_queue id { name := "d" } "q"
        { queue_registry_ := [("q", { type := { name := "i" }, instance_ := some 0 })],
          queue_configmap_ := [("q", { kind := queue_kind.std_deque, size := 10 })],
          heap := [{ elem := { name := "i" }, name := "q", size := 10 }] }).2
      = { queue_registry_ := [("q", { type := { name := "i" }, instance_ := some 0 })],
          queue_configmap_ := [("q", { kind := queue_kind.std_deque, size := 10 })],
          heap := [{ elem := { name := "i" }, name := "q", size := 10 }] } ∧
      (get_queue id { name := "d" } "q"
        { queue_registry_ := [("q", { type := { name := "i" }, instance_ := some 0 })],
          queue_configmap_ := [("q", { kind := queue_kind.std_deque, size := 10 })],
          heap := [{ elem := { name := "i" }, name := "q", size := 10 }] }).2.queue_registry_
      = [("q", { type := { name := "i" }, instance_ := some 0 })] ∧
      (get_queue id { name := "d" } "q"
        { queue_registry_ := [("q", { type := { name := "i" }, instance_ := some 0 })],
          queue_configmap_ := [("q", { kind := queue_kind.std_deque, size := 10 })],
          heap := [{ elem := { name := "i" }, name := "q", size := 10 }] }).2.queue_configmap_
      = [("q", { kind := queue_kind.std_deque, size := 10 })]) :=
  ⟨by decide,
    get_queue_failure_atomic id { name := "d" } "q"
      { queue_registry_ := [("q", { type := { name := "i" }, instance_ := some 0 })],
        queue_configmap_ := [("q", { kind := queue_kind.std_deque, size := 10 })],
        heap := [{ elem := { name := "i" }, name := "q", size := 10 }] }
      (QueueError.QueueTypeMismatch "q" "i" "d") (by decide)⟩

/-- C17: a call `get_queue<T>(name)`, whether it returns or throws, leaves the configuration table
as it was and, for every name `m` other than `name`, leaves the entry of `m` as it was: absent if it
was absent, and with the same type and the same instance pointer if it was present; the objects
already allocated are left as they were too. -/
theorem get_queue_frame (demangle : String → String) (T : type_info) (name : String)
    (s : QueueRegistry) :
    (get_queue demangle T name s).2.queue_configmap_ = s.queue_configmap_ ∧
    (∀ m : String, m ≠ name →
      map_find (get_queue demangle T name s).2.queue_registry_ m
        = map_find s.queue_registry_ m) ∧
    (∀ (a : Nat) (o : NamedStdDeQueue), s.heap[a]? = some o →
      (get_queue demangle T name s).2.heap[a]? = some o) := by
  cases hl : get_queue_lookup demangle T name s with
  | some err1 =>
      rw [get_queue_of_mismatch demangle T name s err1 hl]
      exact ⟨rfl, fun _ _ => rfl, fun _ _ h => h⟩
  | none =>
      cases hc : map_find s.queue_configmap_ name with
      | none =>
          rw [get_queue_of_no_config demangle T name s hl hc]
          exact ⟨rfl, fun _ _ => rfl, fun _ _ h => h⟩
      | some config =>
          by_cases hk : config.kind = queue_kind.std_deque
          · rw [get_queue_of_deque demangle T name s config hl hc hk]
            exact ⟨rfl, fun m hm => map_find_assign_other _ _ _ _ hm,
              fun a o h => heap_lookup_append _ _ _ _ h⟩
          · rw [get_queue_of_unknown_kind demangle T name s config hl hc hk]
            exact ⟨rfl, fun _ _ => rfl, fun _ _ h => h⟩

theorem get_queue_frame_witness :
    (("r" : String) ≠ "q" ∧
      map_find (get_queue id { name := "i" } "q"
          { queue_registry_ := [("r", { type := { name := "d" }, instance_ := some 0 })],
            queue_configmap_ := [("q", { kind := queue_kind.std_deque, size := 10 }),
                                 ("r", { kind := queue_kind.std_deque, size := 3 })],
            heap := [{ elem := { name := "d" }, name := "r", size := 3 }] }).2.queue_registry_ "r"
        = map_find [("r", ({ type := { name := "d" }, instance_ := some 0 } : QueueEntry))] "r") ∧
    (([{ elem := { name := "d" }, name := "r", size := 3 }] : Heap)[0]?
        = some { elem := { name := "d" }, name := "r", size := 3 } ∧
      (get_queue id { name := "i" } "q"
          { queue_registry_ := [("r", { type := { name := "d" }, instance_ := some 0 })],
            queue_configmap_ := [("q", { kind := queue_kind.std_deque, size := 10 }),
                                 ("r", { kind := queue_kind.std_deque, size := 3 })],
            heap := [{ elem := { name := "d" }, name := "r", size := 3 }] }).2.heap[0]?
        = some { elem := { name := "d" }, name := "r", size := 3 }) :=
  ⟨⟨by decide,
      (get_queue_frame id { name := "i" } "q"
        { queue_registry_ := [("r", { type := { name := "d" }, instance_ := some 0 })],
          queue_configmap_ := [("q", { kind := queue_kind.std_deque, size := 10 }),
                               ("r", { kind := queue_kind.std_deque, size := 3 })],
          heap := [{ elem := { name := "d" }, name := "r", size := 3 }] }).2.1 "r" (by decide)⟩,
    ⟨rfl,
      (get_queue_frame id { name := "i" } "q"
        { queue_registry_ := [("r", { type := { name := "d" }, instance_ := some 0 })],
          queue_configmap_ := [("q", { kind := queue_kind.std_deque, size := 10 }),
                               ("r", { kind := queue_kind.std_deque, size := 3 })],
          heap := [{ elem := { name := "d" }, name := "r", size := 3 }] }).2.2 0
        { elem := { name := "d" }, name := "r", size := 3 } rfl⟩⟩

end appframework

namespace dunedaq.appfwk.cmd

/-! ## `str` after `toId`, and the constants of `IdNames` -/

/-- C13: whenever `toId(s)` returns an identifier `id`, that identifier is one of the nine
enumerators and `str(id)` returns `s`; and on each of the nine enumerators `str` returns one of the
nine names, which `toId` sends back to the enumerator.  So `str` and `toId` are inverse to each
other between the nine enumerators and the nine names. -/
theorem str_toId :
    (∀ (s : String) (id : Id), toId s = Except.ok id →
      id ∈ Id.enumerators ∧ str id = Except.ok s) ∧
    (∀ id : Id, id ∈ Id.enumerators →
      ∃ s, s ∈ ["exec", "init", "conf", "start", "stop", "scrap", "fina", "term", "undef"] ∧
        str id = Except.ok s ∧ toId s = Except.ok id) := by
  constructor
  · intro s id h
    by_cases hm : s ∈ ["exec", "init", "conf", "start", "stop", "scrap", "fina", "term", "undef"]
    · simp only [List.mem_cons, List.mem_singleton, List.not_mem_nil, or_false] at hm
      rcases hm with rfl | rfl | rfl | rfl | rfl | rfl | rfl | rfl | rfl
      · have hv : toId "exec" = Except.ok Id.exec := by decide
        rw [hv] at h; cases h; exact ⟨by decide, by decide⟩
      · have hv : toId "init" = Except.ok Id.init := by decide
        rw [hv] at h; cases h; exact ⟨by decide, by decide⟩
      · have hv : toId "conf" = Except.ok Id.conf := by decide
        rw [hv] at h; cases h; exact ⟨by decide, by decide⟩
      · have hv : toId "start" = Except.ok Id.start := by decide
        rw [hv] at h; cases h; exact ⟨by decide, by decide⟩
      · have hv : toId "stop" = Except.ok Id.stop := by decide
        rw [hv] at h; cases h; exact ⟨by decide, by decide⟩
      · have hv : toId "scrap" = Except.ok Id.scrap := by decide
        rw [hv] at h; cases h; exact ⟨by decide, by decide⟩
      · have hv : toId "fina" = Except.ok Id.fina := by decide
        rw [hv] at h; cases h; exact ⟨by decide, by decide⟩
      · have hv : toId "term" = Except.ok Id.term := by decide
        rw [hv] at h; cases h; exact ⟨by decide, by decide⟩
      · have hv : toId "undef" = Except.ok Id.undef := by decide
        rw [hv] at h; cases h; exact ⟨by decide, by decide⟩
    · rw [toId_of_not_mem s hm] at h
      cases h
  · intro id hid
    simp only [Id.enumerators, List.mem_cons, List.mem_singleton, List.not_mem_nil,
      or_false] at hid
    rcases hid with rfl | rfl | rfl | rfl | rfl | rfl | rfl | rfl | rfl
    · exact ⟨"exec", by decide, by decide, by decide⟩
    · exact ⟨"init", by decide, by decide, by decide⟩
    · exact ⟨"conf", by decide, by decide, by decide⟩
    · exact ⟨"start", by decide, by decide, by decide⟩
    · exact ⟨"stop", by decide, by decide, by decide⟩
    · exact ⟨"scrap", by decide, by decide, by decide⟩
    · exact ⟨"fina", by decide, by decide, by decide⟩
    · exact ⟨"term", by decide, by decide, by decide⟩
    · exact ⟨"undef", by decide, by decide, by decide⟩

theorem str_toId_witness :
    (toId "stop" = Except.ok Id.stop ∧
      (Id.stop ∈ Id.enumerators ∧ str Id.stop = Except.ok "stop")) ∧
    (Id.fina ∈ Id.enumerators ∧
      ∃ s, s ∈ ["exec", "init", "conf", "start", "stop", "scrap", "fina", "term", "undef"] ∧
        str Id.fina = Except.ok s ∧ toId s = Except.ok Id.fina) :=
  ⟨⟨by decide, str_toId.1 "stop" Id.stop (by decide)⟩,
    ⟨by decide, str_toId.2 Id.fina (by decide)⟩⟩

end dunedaq.appfwk.cmd

namespace dunedaq.appfwk

/-! ## Theorems on `FakeDataConsumerDAQModule` -/

/-- C14: in every state of the module and of the registry, hence also after any number of
`conf` commands with any payloads and in a module never configured, `do_unconfigure` leaves
`inputQueue_` null and `queueTimeout_` at 100 ms, the value the constructor gives it; it changes
no other member of the module, and the registry, with every entry and every queue object in it,
is as it was before. -/
theorem do_unconfigure_releases (p : Process) :
    (do_unconfigure p).module.inputQueue_ = none ∧
    (do_unconfigure p).module.queueTimeout_ = 100 ∧
    (∀ (name : String) (cfg0 : FakeDataConsumerCfg),
      (do_unconfigure p).module.queueTimeout_
        = (FakeDataConsumerDAQModule.construct name cfg0).queueTimeout_) ∧
    (do_unconfigure p).module.cfg_ = p.module.cfg_ ∧
    (do_unconfigure p).module.commands = p.module.commands ∧
    (do_unconfigure p).registry = p.registry ∧
    (∀ (demangle : String → String) (payloads : List FakeDataConsumerCfg) (name : String)
        (cfg0 : FakeDataConsumerCfg) (registry : appframework.QueueRegistry),
      (do_unconfigure (configure_all demangle payloads
          { module := FakeDataConsumerDAQModule.construct name cfg0,
            registry := registry })).module.inputQueue_ = none ∧
      (do_unconfigure (configure_all demangle payloads
          { module := FakeDataConsumerDAQModule.construct name cfg0,
            registry := registry })).module.queueTimeout_ = 100 ∧
      (do_unconfigure (configure_all demangle payloads
          { module := FakeDataConsumerDAQModule.construct name cfg0,
            registry := registry })).registry
        = (configure_all demangle payloads
          { module := FakeDataConsumerDAQModule.construct name cfg0,
            registry := registry }).registry) :=
  ⟨rfl, rfl, fun _ _ => rfl, rfl, rfl, rfl, fun _ _ _ _ _ => ⟨rfl, rfl, rfl⟩⟩

/-- C15: an iteration of the `while` loop of `do_work` in which `pop` throws
`QueueTimeoutExpired` throws nothing itself and goes back to the test of the running flag with
`counter`, `fail_count` and `current_int` (and the issues reported) as they were; the rest of the
loop runs as if that iteration had not taken place.  An exception of another type leaves
`do_work`. -/
theorem do_work_pop_timeout (m : FakeDataConsumerDAQModule) (st : WorkState)
    (rest : List Observation) :
    do_work_iteration m st Observation.pop_timed_out = Except.ok st ∧
    do_work_loop m (Observation.pop_timed_out :: rest) st = do_work_loop m rest st ∧
    (∀ what : String,
      do_work_loop m (Observation.pop_threw what :: rest) st = Except.error what) :=
  ⟨rfl, rfl, fun _ => rfl⟩

/-- C19: for each of the nine identifiers `X`, the constant `IdNames::X` is the string that
`str(Id::X)` returns and `toId(IdNames::X)` returns `Id::X`.  The constructor of
`FakeDataConsumerDAQModule` registers its four handlers under `conf`, `scrap`, `start` and `stop`;
`toId` succeeds on every name under which a handler is registered, and the four names are
pairwise distinct. -/
theorem IdNames_agree (name : String) (cfg0 : FakeDataConsumerCfg) :
    ((cmd.str cmd.Id.exec = Except.ok cmd.IdNames.exec ∧
        cmd.toId cmd.IdNames.exec = Except.ok cmd.Id.exec) ∧
      (cmd.str cmd.Id.init = Except.ok cmd.IdNames.init ∧
        cmd.toId cmd.IdNames.init = Except.ok cmd.Id.init) ∧
      (cmd.str cmd.Id.conf = Except.ok cmd.IdNames.conf ∧
        cmd.toId cmd.IdNames.conf = Except.ok cmd.Id.conf) ∧
      (cmd.str cmd.Id.start = Except.ok cmd.IdNames.start ∧
        cmd.toId cmd.IdNames.start = Except.ok cmd.Id.start) ∧
      (cmd.str cmd.Id.stop = Except.ok cmd.IdNames.stop ∧
        cmd.toId cmd.IdNames.stop = Except.ok cmd.Id.stop) ∧
      (cmd.str cmd.Id.scrap = Except.ok cmd.IdNames.scrap ∧
        cmd.toId cmd.IdNames.scrap = Except.ok cmd.Id.scrap) ∧
      (cmd.str cmd.Id.fina = Except.ok cmd.IdNames.fina ∧
        cmd.toId cmd.IdNames.fina = Except.ok cmd.Id.fina) ∧
      (cmd.str cmd.Id.term = Except.ok cmd.IdNames.term ∧
        cmd.toId cmd.IdNames.term = Except.ok cmd.Id.term) ∧
      (cmd.str cmd.Id.undef = Except.ok cmd.IdNames.undef ∧
        cmd.toId cmd.IdNames.undef = Except.ok cmd.Id.undef)) ∧
    (FakeDataConsumerDAQModule.construct name cfg0).commands
      = [(cmd.IdNames.conf, CommandHandler.do_configure),
         (cmd.IdNames.scrap, CommandHandler.do_unconfigure),
         (cmd.IdNames.start, CommandHandler.do_start),
         (cmd.IdNames.stop, CommandHandler.do_stop)] ∧
    (∀ (c : String) (handler : CommandHandler),
      (c, handler) ∈ (FakeDataConsumerDAQModule.construct name cfg0).commands →
      ∃ id, cmd.toId c = Except.ok id) ∧
    ((FakeDataConsumerDAQModule.construct name cfg0).commands.map Prod.fst).Nodup := by
  have hc : (FakeDataConsumerDAQModule.construct name cfg0).commands
      = [(cmd.IdNames.conf, CommandHandler.do_configure),
         (cmd.IdNames.scrap, CommandHandler.do_unconfigure),
         (cmd.IdNames.start, CommandHandler.do_start),
         (cmd.IdNames.stop, CommandHandler.do_stop)] := by
    simp only [FakeDataConsumerDAQModule.construct]
    decide
  refine ⟨by decide, hc, ?_, ?_⟩
  · intro c handler hmem
    rw [hc] at hmem
    simp only [List.mem_cons, List.mem_singleton, List.not_mem_nil, or_false,
      Prod.mk.injEq] at hmem
    rcases hmem with ⟨rfl, _⟩ | ⟨rfl, _⟩ | ⟨rfl, _⟩ | ⟨rfl, _⟩
    · exact ⟨cmd.Id.conf, by decide⟩
    · exact ⟨cmd.Id.scrap, by decide⟩
    · exact ⟨cmd.Id.start, by decide⟩
    · exact ⟨cmd.Id.stop, by decide⟩
  · rw [hc]
    decide

theorem IdNames_agree_witness :
    (cmd.IdNames.scrap, CommandHandler.do_unconfigure)
        ∈ (FakeDataConsumerDAQModule.construct "consumer"
            { input := "ints", queue_timeout_ms := 100, starting_int := 1,
              ending_int := 5 }).commands ∧
    ∃ id, cmd.toId cmd.IdNames.scrap = Except.ok id :=
  ⟨by decide,
    (IdNames_agree "consumer"
      { input := "ints", queue_timeout_ms := 100, starting_int := 1, ending_int := 5 }).2.2.1
      cmd.IdNames.scrap CommandHandler.do_unconfigure (by decide)⟩

end dunedaq.appfwk

namespace dunedaq.appfwk

/-! ## The check of a received vector -/

theorem increment_of_lt (x : Int) (h : x < INT_MAX) : increment x = x + 1 := by
  have hne : x ≠ INT_MAX := ne_of_lt h
  simp [increment, hne]

theorem check_point_current (cfg : FakeDataConsumerCfg) (counter : Int) (st : CheckState)
    (point : Int) (h : point < INT_MAX) :
    (check_point cfg counter st point).current_int = cyclic_successor cfg point := by
  have hcur : (if point ≠ st.current_int then
        if st.ii ≠ 0 then
          ({ st with
              reports := st.reports ++
                [Report.ConsumerErrorDetected counter st.ii st.current_int point]
              failed := true
              current_int := point } : CheckState)
        else
          { st with
              reports := st.reports ++ [Report.JumpDetected counter]
              current_int := point }
      else st).current_int = point := by
    by_cases h1 : point = st.current_int
    · simp [h1]
    · by_cases h2 : st.ii = 0 <;> simp [h1, h2]
  simp only [check_point, hcur, increment_of_lt point h, cyclic_successor]
  by_cases h3 : point + 1 ≤ cfg.ending_int
  · have h4 : ¬ point + 1 > cfg.ending_int := not_lt.mpr h3
    simp [h3, h4]
  · have h4 : point + 1 > cfg.ending_int := not_le.mp h3
    simp [h3, h4]

theorem check_point_ii (cfg : FakeDataConsumerCfg) (counter : Int) (st : CheckState)
    (point : Int) : (check_point cfg counter st point).ii = st.ii + 1 := by
  by_cases h1 : point = st.current_int
  · simp [check_point, h1]
  · by_cases h2 : st.ii = 0 <;> simp [check_point, h1, h2]

theorem check_point_failed (cfg : FakeDataConsumerCfg) (counter : Int) (st : CheckState)
    (point : Int) (hii : st.ii ≠ 0) :
    ((check_point cfg counter st point).failed = true ↔
      st.failed = true ∨ point ≠ st.current_int) := by
  by_cases h1 : point = st.current_int
  · simp [check_point, h1]
  · simp [check_point, h1, hii]

theorem check_point_first (cfg : FakeDataConsumerCfg) (counter current_int point : Int)
    (h : point < INT_MAX) :
    check_point cfg counter
        { current_int := current_int, failed := false, ii := 0, reports := [] } point
      = { current_int := cyclic_successor cfg point, failed := false, ii := 1,
          reports := if point ≠ current_int then [Report.JumpDetected counter] else [] } := by
  have hc := check_point_current cfg counter
    { current_int := current_int, failed := false, ii := 0, reports := [] } point h
  by_cases h1 : point = current_int
  · simp [check_point, h1] at hc ⊢
    exact hc
  · simp [check_point, h1] at hc ⊢
    exact hc

/-- The pairs of neighbours of `x :: rest` are the pair made of `x` and the head of `rest`, and the
pairs of neighbours of `rest`. -/
theorem neighbours_cons (f : Int → Int) (x : Int) (rest : List Int) :
    (∃ i p q, (x :: rest)[i]? = some p ∧ (x :: rest)[i + 1]? = some q ∧ q ≠ f p) ↔
      (∃ q, rest[0]? = some q ∧ q ≠ f x) ∨
      (∃ i p q, rest[i]? = some p ∧ rest[i + 1]? = some q ∧ q ≠ f p) := by
  constructor
  · rintro ⟨i, p, q, h1, h2, h3⟩
    cases i with
    | zero =>
        simp only [List.getElem?_cons_zero, Option.some.injEq] at h1
        simp only [zero_add, List.getElem?_cons_succ] at h2
        subst h1
        exact Or.inl ⟨q, h2, h3⟩
    | succ j =>
        simp only [List.getElem?_cons_succ] at h1 h2
        exact Or.inr ⟨j, p, q, h1, h2, h3⟩
  · rintro (⟨q, h2, h3⟩ | ⟨j, p, q, h1, h2, h3⟩)
    · exact ⟨0, x, q, by simp, by simpa using h2, h3⟩
    · exact ⟨j + 1, p, q, by simpa using h1, by simpa using h2, h3⟩

theorem check_loop_failed (cfg : FakeDataConsumerCfg) (counter : Int) (vec : List Int) :
    ∀ st : CheckState, st.ii ≠ 0 → (∀ x ∈ vec, x < INT_MAX) →
      ((vec.foldl (check_point cfg counter) st).failed = true ↔
        st.failed = true ∨ (∃ q, vec[0]? = some q ∧ q ≠ st.current_int) ∨
          (∃ i p q, vec[i]? = some p ∧ vec[i + 1]? = some q ∧ q ≠ cyclic_successor cfg p)) := by
  induction vec with
  | nil => intro st _ _; simp
  | cons x rest ih =>
      intro st hii hmax
      have hx : x < INT_MAX := hmax x (List.mem_cons_self x rest)
      have hrest : ∀ y ∈ rest, y < INT_MAX := fun y hy => hmax y (List.mem_cons_of_mem x hy)
      have hii1 : (check_point cfg counter st x).ii ≠ 0 := by
        rw [check_point_ii]; exact Nat.succ_ne_zero _
      have hhead : (∃ q, (x :: rest)[0]? = some q ∧ q ≠ st.current_int) ↔
          x ≠ st.current_int := by
        constructor
        · rintro ⟨q, hq, hne⟩
          simp only [List.getElem?_cons_zero, Option.some.injEq] at hq
          subst hq
          exact hne
        · intro hne
          exact ⟨x, by simp, hne⟩
      rw [List.foldl_cons, ih (check_point cfg counter st x) hii1 hrest,
        check_point_failed cfg counter st x hii, check_point_current cfg counter st x hx,
        neighbours_cons (cyclic_successor cfg) x rest, hhead]
      constructor
      · rintro ((h | h) | h | h)
        · exact Or.inl h
        · exact Or.inr (Or.inl h)
        · exact Or.inr (Or.inr (Or.inl h))
        · exact Or.inr (Or.inr (Or.inr h))
      · rintro (h | h | h | h)
        · exact Or.inl (Or.inl h)
        · exact Or.inl (Or.inr h)
        · exact Or.inr (Or.inl h)
        · exact Or.inr (Or.inr h)

theorem check_loop_current (cfg : FakeDataConsumerCfg) (counter : Int) (rest : List Int) :
    ∀ (x : Int) (st : CheckState), (∀ y ∈ x :: rest, y < INT_MAX) →
      ∀ last, (x :: rest).getLast? = some last →
        ((x :: rest).foldl (check_point cfg counter) st).current_int
          = cyclic_successor cfg last := by
  induction rest with
  | nil =>
      intro x st hmax last hlast
      simp only [List.getLast?_singleton, Option.some.injEq] at hlast
      subst hlast
      exact check_point_current cfg counter st x (hmax x (List.mem_singleton_self x))
  | cons y rest2 ih =>
      intro x st hmax last hlast
      rw [List.getLast?_cons_cons] at hlast
      rw [List.foldl_cons]
      exact ih y (check_point cfg counter st x)
        (fun z hz => hmax z (List.mem_cons_of_mem x hz)) last hlast

/-- C18: for a received vector whose elements are below `INT_MAX`, the check of `do_work` sets
`failed` if and only if some element at an index `i + 1` differs from the cyclic successor of the
element at index `i`.  The element at index 0 never sets `failed`, whatever value was expected: the
check of it leaves `failed` false, and reports a jump, and nothing else, when the element differs
from the expected value.  After a non-empty vector the expected value is the cyclic successor of
its last element.  The iteration of `do_work` adds one to `fail_count` exactly when `failed` is
set. -/
theorem check_vector_flags (m : FakeDataConsumerDAQModule) (st : WorkState) (vec : List Int)
    (hmax : ∀ x ∈ vec, x < INT_MAX) :
    ((check_vector m.cfg_ st.counter st.current_int vec).failed = true ↔
      ∃ i p q, vec[i]? = some p ∧ vec[i + 1]? = some q ∧ q ≠ cyclic_successor m.cfg_ p) ∧
    (∀ (p : Int) (rest : List Int), vec = p :: rest →
      check_point m.cfg_ st.counter
          { current_int := st.current_int, failed := false, ii := 0, reports := [] } p
        = { current_int := cyclic_successor m.cfg_ p, failed := false, ii := 1,
            reports :=
              if p ≠ st.current_int then [Report.JumpDetected st.counter] else [] }) ∧
    (∀ last : Int, vec.getLast? = some last →
      (check_vector m.cfg_ st.counter st.current_int vec).current_int
        = cyclic_successor m.cfg_ last) ∧
    do_work_iteration m st (Observation.popped vec)
      = Except.ok
          { current_int := (check_vector m.cfg_ st.counter st.current_int vec).current_int
            counter := increment st.counter
            fail_count :=
              if (check_vector m.cfg_ st.counter st.current_int vec).failed
              then increment st.fail_count else st.fail_count
            reports :=
              st.reports ++ (check_vector m.cfg_ st.counter st.current_int vec).reports } := by
  refine ⟨?_, ?_, ?_, rfl⟩
  · cases vec with
    | nil => simp [check_vector]
    | cons x rest =>
        have hx : x < INT_MAX := hmax x (List.mem_cons_self x rest)
        have hrest : ∀ y ∈ rest, y < INT_MAX := fun y hy => hmax y (List.mem_cons_of_mem x hy)
        have hfirst := check_point_first m.cfg_ st.counter st.current_int x hx
        rw [check_vector, List.foldl_cons, hfirst,
          check_loop_failed m.cfg_ st.counter rest _ (by simp) hrest,
          neighbours_cons (cyclic_successor m.cfg_) x rest]
        simp
  · intro p rest hvec
    exact check_point_first m.cfg_ st.counter st.current_int p
      (hmax p (by rw [hvec]; exact List.mem_cons_self p rest))
  · intro last hlast
    cases vec with
    | nil => simp at hlast
    | cons x rest => exact check_loop_current m.cfg_ st.counter rest x _ hmax last hlast

theorem check_vector_flags_witness :
    (∀ x ∈ ([4, 5, 1, 3] : List Int), x < INT_MAX) ∧
    ((check_vector
          (FakeDataConsumerDAQModule.construct "consumer"
            { input := "ints", queue_timeout_ms := 100, starting_int := 1,
              ending_int := 5 }).cfg_ 7 2 [4, 5, 1, 3]).failed = true ↔
      ∃ i p q, ([4, 5, 1, 3] : List Int)[i]? = some p ∧
        ([4, 5, 1, 3] : List Int)[i + 1]? = some q ∧
        q ≠ cyclic_successor
          (FakeDataConsumerDAQModule.construct "consumer"
            { input := "ints", queue_timeout_ms := 100, starting_int := 1,
              ending_int := 5 }).cfg_ p) ∧
    (check_vector
        (FakeDataConsumerDAQModule.construct "consumer"
          { input := "ints", queue_timeout_ms := 100, starting_int := 1,
            ending_int := 5 }).cfg_ 7 2 [4, 5, 1, 3]).failed = true ∧
    (check_vector
        (FakeDataConsumerDAQModule.construct "consumer"
          { input := "ints", queue_timeout_ms := 100, starting_int := 1,
            ending_int := 5 }).cfg_ 7 2 [4, 5, 1, 3]).current_int = 4 :=
  ⟨by decide,
    (check_vector_flags
      (FakeDataConsumerDAQModule.construct "consumer"
        { input := "ints", queue_timeout_ms := 100, starting_int := 1, ending_int := 5 })
      { current_int := 2, counter := 7, fail_count := 0, reports := [] }
      [4, 5, 1, 3] (by decide)).1,
    by decide, by decide⟩

end dunedaq.appfwk
